import Mathlib

/-!
Verification of the Agent Orchestration Engine (event bus, MCP connection
registry, orchestrator state machine) against its natural-language
specification.  Definitions are shallow embeddings of the Python sources in
`src/backend/src/core/event_bus.py`, `src/backend/src/mcp_client/manager.py`,
`src/backend/src/mcp_client/connection.py` and
`src/backend/src/core/orchestrator.py`.
-/

namespace HackEurope

/-- Agent status enumeration from `src/backend/src/core/state.py` (`AgentStatus`). -/
inductive AgentStatus where
  | pending
  | online
  | busy
  | offline
  | error
deriving DecidableEq

/-- An event on the bus (`Event` dataclass in `event_bus.py`).  The `type`
field holds the string value of the `EventType` enum member (for instance
"agent.connected"); `event_id` models the generated UUID as a number and
`timestamp` the creation time. -/
structure Event where
  type : String
  data : List (String × String)
  event_id : Nat
  timestamp : Nat
  source : Option String
  target : Option String
deriving DecidableEq

/-- EventBus.publish from `event_bus.py`: `put_nowait` appends when the queue
has room (a capacity of 0 means an unbounded `asyncio.Queue`); on
`QueueFull` the oldest queued event is popped (`get_nowait`) and the new
event appended. -/
def publish (cap : Nat) (q : List Event) (e : Event) : List Event :=
  if cap = 0 ∨ q.length < cap then q ++ [e]
  else q.drop 1 ++ [e]

/-- Folding EventBus.publish over a list of events, in publication order. -/
def publishAll (cap : Nat) (q : List Event) (es : List Event) : List Event :=
  es.foldl (publish cap) q

/-- The last `cap` elements of a list (what a bounded drop-oldest queue
retains). -/
def keepLast (cap : Nat) (l : List Event) : List Event :=
  l.drop (l.length - cap)

/-- The part of a topic before its last dot: Python
`topic.rsplit(".", 1)[0] if "." in topic else topic` in `EventBus._dispatch`. -/
def topicStem (topic : String) : String :=
  if topic.data.contains '.' then
    String.mk (((topic.data.reverse.dropWhile (fun c => c != '.')).drop 1).reverse)
  else topic

/-- EventBus.subscribe from `event_bus.py`: handlers are appended to the
per-topic list of a defaultdict.  Handlers are modelled by numeric
identities. -/
def subscribe (handlers : String → List Nat) (topic : String) (h : Nat) :
    String → List Nat :=
  fun t => if t = topic then handlers t ++ [h] else handlers t

/-- The empty handler table (`defaultdict(list)`). -/
def emptyHandlers : String → List Nat := fun _ => []

/-- EventBus._dispatch from `event_bus.py`: the handlers invoked for an event
of the given topic are the exact-topic handlers, then the prefix-wildcard
handlers (key `stem ++ ".*"`), then the global `"*"` handlers. -/
def dispatchHandlers (handlers : String → List Nat) (topic : String) : List Nat :=
  handlers topic ++ handlers (topicStem topic ++ ".*") ++ handlers "*"

/-- Number of times handler `h` runs while the processing loop
(`EventBus._process_events`) drains the given delivered events in order:
each event invokes every matching handler once. -/
def handlerInvocations (handlers : String → List Nat) (h : Nat)
    (delivered : List Event) : Nat :=
  (delivered.map (fun e => (dispatchHandlers handlers e.type).count h)).sum

theorem publish_length_le {cap : Nat} (hcap : 0 < cap) (q : List Event)
    (e : Event) (hq : q.length ≤ cap) : (publish cap q e).length ≤ cap := by
  unfold publish
  rcases Nat.lt_or_ge q.length cap with hlt | hge
  · simp [hlt]
    omega
  · have hqe : q.length = cap := le_antisymm hq hge
    have : ¬ (cap = 0 ∨ q.length < cap) := by omega
    simp [this]
    omega

theorem publishAll_eq_keepLast {cap : Nat} (hcap : 0 < cap) :
    ∀ (es q : List Event), q.length ≤ cap →
      publishAll cap q es = keepLast cap (q ++ es) := by
  intro es
  induction es with
  | nil =>
      intro q hq
      have h0 : q.length - cap = 0 := by omega
      simp [publishAll, keepLast, h0]
  | cons e es ih =>
      intro q hq
      have hle : (publish cap q e).length ≤ cap := publish_length_le hcap q e hq
      have hstep : publishAll cap q (e :: es) = publishAll cap (publish cap q e) es := by
        simp [publishAll]
      rw [hstep, ih (publish cap q e) hle]
      unfold publish
      rcases Nat.lt_or_ge q.length cap with hlt | hge
      · have : cap = 0 ∨ q.length < cap := Or.inr hlt
        simp only [this, if_pos]
        simp [keepLast]
      · have hqe : q.length = cap := le_antisymm hq hge
        have hne : ¬ (cap = 0 ∨ q.length < cap) := by omega
        simp only [hne, if_neg, not_false_iff]
        have hqnil : q ≠ [] := by
          intro hnil
          rw [hnil] at hqe
          simp at hqe
          omega
        have hdrop : (q.drop 1 ++ [e]) ++ es = (q ++ e :: es).drop 1 := by
          cases q with
          | nil => exact absurd rfl hqnil
          | cons a q' => simp
        rw [hdrop]
        unfold keepLast
        rw [List.drop_drop]
        congr 1
        simp
        omega

theorem invocations_of_uniform {h : Nat} :
    ∀ (l : List Event), (∀ e ∈ l, e.type = "task.created") →
      handlerInvocations (subscribe emptyHandlers "task.created" h) h l = l.length := by
  intro l
  induction l with
  | nil => intro _; simp [handlerInvocations]
  | cons e es ih =>
      intro hall
      have he : e.type = "task.created" := hall e (by simp)
      have hrest : ∀ e ∈ es, e.type = "task.created" := fun x hx => hall x (by simp [hx])
      have hone : (dispatchHandlers (subscribe emptyHandlers "task.created" h) e.type).count h = 1 := by
        rw [he]
        have hkey : topicStem "task.created" ++ ".*" = "task.*" := by decide
        have : dispatchHandlers (subscribe emptyHandlers "task.created" h) "task.created" = [h] := by
          simp [dispatchHandlers, subscribe, emptyHandlers, hkey]
        rw [this]
        simp
      calc handlerInvocations (subscribe emptyHandlers "task.created" h) h (e :: es)
          = (dispatchHandlers (subscribe emptyHandlers "task.created" h) e.type).count h
            + handlerInvocations (subscribe emptyHandlers "task.created" h) h es := by
            simp [handlerInvocations]
        _ = 1 + es.length := by rw [hone, ih hrest]
        _ = (e :: es).length := by simp; omega

/-- C3: with one handler subscribed to the topic, publishing N events delivers
all N and invokes the handler exactly N times while the queue never exceeds
its capacity; when more events than the capacity are published before any is
dispatched, exactly `capacity` events are delivered and they are the
most-recently-published ones (publish drops the oldest queued event). -/
theorem C3_publish_delivery (cap : Nat) (es : List Event) (h : Nat)
    (hcap : 0 < cap) (htopic : ∀ e ∈ es, e.type = "task.created") :
    (es.length ≤ cap →
      publishAll cap [] es = es ∧
      handlerInvocations (subscribe emptyHandlers "task.created" h) h
        (publishAll cap [] es) = es.length) ∧
    (cap ≤ es.length →
      publishAll cap [] es = es.drop (es.length - cap) ∧
      (publishAll cap [] es).length = cap ∧
      handlerInvocations (subscribe emptyHandlers "task.created" h) h
        (publishAll cap [] es) = cap) := by
  have hbase : publishAll cap [] es = keepLast cap es := by
    have := publishAll_eq_keepLast hcap es [] (by simp)
    simpa using this
  constructor
  · intro hle
    have heq : publishAll cap [] es = es := by
      rw [hbase]
      unfold keepLast
      have : es.length - cap = 0 := by omega
      rw [this]
      simp
    refine ⟨heq, ?_⟩
    rw [heq]
    exact invocations_of_uniform es htopic
  · intro hge
    have heq : publishAll cap [] es = es.drop (es.length - cap) := by
      rw [hbase]; rfl
    have hlen : (publishAll cap [] es).length = cap := by
      rw [heq]
      simp
      omega
    refine ⟨heq, hlen, ?_⟩
    have hsub : ∀ e ∈ es.drop (es.length - cap), e.type = "task.created" := by
      intro e he
      exact htopic e (List.mem_of_mem_drop he)
    rw [heq, invocations_of_uniform _ hsub]
    rw [List.length_drop]
    omega

/-- Witness for C3 at a concrete capacity and event list. -/
theorem C3_publish_delivery_witness :
    let e1 : Event := ⟨"task.created", [], 1, 0, none, none⟩
    let e2 : Event := ⟨"task.created", [], 2, 0, none, none⟩
    let e3 : Event := ⟨"task.created", [], 3, 0, none, none⟩
    publishAll 2 [] [e1, e2, e3] = [e2, e3] ∧
    handlerInvocations (subscribe emptyHandlers "task.created" 7) 7
      (publishAll 2 [] [e1, e2, e3]) = 2 := by
  intro e1 e2 e3
  have h := C3_publish_delivery 2 [e1, e2, e3] 7 (by decide)
    (by intro e he; simp [e1, e2, e3] at he; rcases he with h | h | h <;> simp [h])
  have h2 := h.2 (by simp)
  exact ⟨h2.1, h2.2.2⟩

/-- C4: the handlers a dispatched event reaches are exactly the union of
exact-topic handlers, prefix-wildcard handlers and global-wildcard handlers;
a handler subscribed to "agent.*" is reached by agent.connected and
agent.disconnected events but not by task.created, and a handler subscribed
to bare "*" is reached by every event. -/
theorem C4_wildcard_dispatch :
    (∀ (hm : String → List Nat) (topic : String) (h : Nat),
        h ∈ dispatchHandlers hm topic ↔
          (h ∈ hm topic ∨ h ∈ hm (topicStem topic ++ ".*") ∨ h ∈ hm "*")) ∧
    (∀ h : Nat,
        h ∈ dispatchHandlers (subscribe emptyHandlers "agent.*" h) "agent.connected" ∧
        h ∈ dispatchHandlers (subscribe emptyHandlers "agent.*" h) "agent.disconnected" ∧
        h ∉ dispatchHandlers (subscribe emptyHandlers "agent.*" h) "task.created") ∧
    (∀ (h : Nat) (topic : String),
        h ∈ dispatchHandlers (subscribe emptyHandlers "*" h) topic) := by
  refine ⟨?_, ?_, ?_⟩
  · intro hm topic h
    simp [dispatchHandlers]
  · intro h
    have hkey1 : topicStem "agent.connected" ++ ".*" = "agent.*" := by decide
    have hkey2 : topicStem "agent.disconnected" ++ ".*" = "agent.*" := by decide
    have hkey3 : topicStem "task.created" ++ ".*" = "task.*" := by decide
    refine ⟨?_, ?_, ?_⟩
    · simp [dispatchHandlers, subscribe, emptyHandlers, hkey1]
    · simp [dispatchHandlers, subscribe, emptyHandlers, hkey2]
    · simp [dispatchHandlers, subscribe, emptyHandlers, hkey3]
  · intro h topic
    have : (subscribe emptyHandlers "*" h) "*" = [h] := by
      simp [subscribe, emptyHandlers]
    simp [dispatchHandlers, this]

/-- Witness for C4 at concrete handler identities. -/
theorem C4_wildcard_dispatch_witness :
    5 ∈ dispatchHandlers (subscribe emptyHandlers "agent.*" 5) "agent.connected" ∧
    5 ∉ dispatchHandlers (subscribe emptyHandlers "agent.*" 5) "task.created" ∧
    5 ∈ dispatchHandlers (subscribe emptyHandlers "*" 5) "task.created" :=
  ⟨(C4_wildcard_dispatch.2.1 5).1,
   (C4_wildcard_dispatch.2.1 5).2.2,
   C4_wildcard_dispatch.2.2 5 "task.created"⟩

/-- A tool declared by an agent (`MCPTool` in `state.py`); the JSON input
schema is kept opaque. -/
structure MCPTool where
  name : String
  description : Option String
  input_schema : Option String
deriving DecidableEq

/-- A resource declared by an agent (`MCPResource` in `state.py`). -/
structure MCPResource where
  uri : String
  name : String
  description : Option String
  mime_type : Option String
deriving DecidableEq

/-- Capabilities discovered from an agent (`AgentCapabilities` in `state.py`). -/
structure AgentCapabilities where
  tools : List MCPTool
  resources : List MCPResource
  supports_sampling : Bool
  supports_logging : Bool
deriving DecidableEq

/-- The AgentConnection dataclass from `connection.py`.  The transport session
and the HTTP client are modelled by optional numeric handles. -/
structure AgentConnection where
  agent_id : String
  mcp_endpoint : String
  status : AgentStatus
  _session : Option Nat
  _http_client : Option Nat
  capabilities : AgentCapabilities
  connected_at : Option Nat
  last_activity : Option Nat
deriving DecidableEq

/-- AgentConnection.disconnect from `connection.py`: closes the HTTP client
when one is held, clears the session, sets the status to Offline and
publishes an agent-disconnected event.  Returns the updated connection,
whether a transport client was actually closed, and the published events. -/
def AgentConnection.disconnect (conn : AgentConnection) :
    AgentConnection × Bool × List Event :=
  ({ conn with _http_client := none, _session := none, status := AgentStatus.offline },
   conn._http_client.isSome,
   [⟨"agent.disconnected", [("agent_id", conn.agent_id)], 0, 0, some "mcp_client", none⟩])

/-- Outcome of the transport handshake and capability discovery performed
inside AgentConnection.connect: either every awaited call succeeds and yields
the discovered capabilities, or some step raises. -/
inductive ConnectOutcome where
  | ok (caps : AgentCapabilities)
  | raises (msg : String)
deriving DecidableEq

/-- AgentConnection.connect from `connection.py`: opens a fresh HTTP client
(handle `fresh`), then handshake and discovery; on success the connection is
Online with the discovered capabilities and timestamps set; on any exception
the status becomes Error.  Returns the updated connection and the success
flag. -/
def AgentConnection.connect (conn : AgentConnection) (outcome : ConnectOutcome)
    (fresh : Nat) (now : Nat) : AgentConnection × Bool :=
  match outcome with
  | .ok caps =>
      ({ conn with _http_client := some fresh, _session := some fresh,
                   capabilities := caps, status := AgentStatus.online,
                   connected_at := some now, last_activity := some now }, true)
  | .raises _ =>
      ({ conn with _http_client := some fresh, status := AgentStatus.error }, false)

/-- State of the MCPClientManager from `manager.py`: the map agent id →
connection kept in registration order, plus a counter of transport clients
ever opened (AgentConnection.connect opens one per call). -/
structure ManagerState where
  connections : List (String × AgentConnection)
  sessions_opened : Nat
deriving DecidableEq

/-- Dictionary lookup `self._connections.get(agent_id)`. -/
def lookupConn (l : List (String × AgentConnection)) (agent_id : String) :
    Option AgentConnection :=
  (l.find? (fun p => p.1 == agent_id)).map Prod.snd

/-- Replace the stored connection for a key (the Python dict holds the object
that connect mutates in place). -/
def updateConn (l : List (String × AgentConnection)) (agent_id : String)
    (conn : AgentConnection) : List (String × AgentConnection) :=
  l.map (fun p => if p.1 == agent_id then (p.1, conn) else p)

/-- MCPClientManager.register_agent from `manager.py`: an already-known agent
id returns the existing connection unchanged; otherwise a fresh Pending
connection is stored and, when `connectNow` is set, connected (the session
counter then grows by one). -/
def register_agent (st : ManagerState) (agent_id mcp_endpoint : String)
    (connectNow : Bool) (outcome : ConnectOutcome) (now : Nat) :
    ManagerState × AgentConnection :=
  match lookupConn st.connections agent_id with
  | some conn => (st, conn)
  | none =>
      let conn : AgentConnection :=
        { agent_id := agent_id, mcp_endpoint := mcp_endpoint,
          status := AgentStatus.pending, _session := none, _http_client := none,
          capabilities := ⟨[], [], false, false⟩, connected_at := none,
          last_activity := none }
      let st1 : ManagerState :=
        { st with connections := st.connections ++ [(agent_id, conn)] }
      if connectNow then
        let conn2 := (AgentConnection.connect conn outcome st1.sessions_opened now).1
        ({ connections := updateConn st1.connections agent_id conn2,
           sessions_opened := st1.sessions_opened + 1 }, conn2)
      else (st1, conn)

/-- Normalized tool-call result: the `{success, content}` / `{success, error}`
dictionary shapes produced by the MCP client layer; content items are
(kind, payload) pairs. -/
structure ToolResult where
  success : Bool
  error : Option String
  content : List (String × String)
deriving DecidableEq

/-- MCPClientManager.call_tool from `manager.py`: validates that the agent
exists and is Online before delegating to the connection.  The `transport`
parameter stands for AgentConnection.call_tool on the found connection; the
returned flag records whether it was invoked at all. -/
def manager_call_tool (st : ManagerState) (agent_id tool_name : String)
    (transport : AgentConnection → String → ToolResult) : ToolResult × Bool :=
  match lookupConn st.connections agent_id with
  | none => (⟨false, some ("Agent " ++ agent_id ++ " not found"), []⟩, false)
  | some conn =>
      if conn.status = AgentStatus.online then (transport conn tool_name, true)
      else (⟨false, some ("Agent " ++ agent_id ++ " is not online"), []⟩, false)

/-- What the transport session does for one tool call inside
AgentConnection.call_tool: either the awaited call returns a raw
CallToolResult (`isError` flag, when present, plus content items), or it
raises. -/
inductive TransportOutcome where
  | ok (isError : Option Bool) (content : List (String × String))
  | raises (msg : String)
deriving DecidableEq

/-- AgentConnection.call_tool from `connection.py`: with no session held it
raises RuntimeError (modelled as `Except.error`); otherwise the raw result is
normalized into the `{success, content}` shape and `last_activity` updated,
and a transport exception is caught and turned into `{success:false, error}`. -/
def connection_call_tool (conn : AgentConnection) (tool_name : String)
    (outcome : TransportOutcome) (now : Nat) :
    Except String (ToolResult × AgentConnection) :=
  if conn._session.isNone then
    Except.error ("Not connected to agent " ++ conn.agent_id)
  else
    match outcome with
    | .ok isError content =>
        let success := match isError with
          | some b => !b
          | none => true
        Except.ok (⟨success, none, content⟩,
                   { conn with last_activity := some now })
    | .raises msg => Except.ok (⟨false, some msg, []⟩, conn)

/-- The three counters of MCPClientManager.health_check: one pass over the
connections incrementing the online / offline / everything-else buckets. -/
def healthStep (acc : Nat × Nat × Nat) (p : String × AgentConnection) :
    Nat × Nat × Nat :=
  if p.2.status = AgentStatus.online then (acc.1 + 1, acc.2.1, acc.2.2)
  else if p.2.status = AgentStatus.offline then (acc.1, acc.2.1 + 1, acc.2.2)
  else (acc.1, acc.2.1, acc.2.2 + 1)

/-- The summary returned by MCPClientManager.health_check (counting part). -/
structure HealthSummary where
  total_agents : Nat
  online : Nat
  offline : Nat
  error : Nat
deriving DecidableEq

/-- MCPClientManager.health_check from `manager.py`. -/
def health_check (st : ManagerState) : HealthSummary :=
  let c := st.connections.foldl healthStep (0, 0, 0)
  ⟨st.connections.length, c.1, c.2.1, c.2.2⟩

theorem find?_key_append (l : List (String × AgentConnection)) (id : String)
    (c : AgentConnection) (h : ∀ a ∈ l, (a.1 == id) = false) :
    (l ++ [(id, c)]).find? (fun p => p.1 == id) = some (id, c) := by
  induction l with
  | nil => simp
  | cons a l ih =>
      have ha : (a.1 == id) = false := h a (by simp)
      rw [List.cons_append, List.find?_cons_of_neg _ (by simp [ha])]
      exact ih (fun x hx => h x (by simp [hx]))

theorem updateConn_no_key (l : List (String × AgentConnection)) (id : String)
    (c2 : AgentConnection) (h : ∀ a ∈ l, (a.1 == id) = false) :
    updateConn l id c2 = l := by
  unfold updateConn
  induction l with
  | nil => simp
  | cons a l ih =>
      have ha : (a.1 == id) = false := h a (by simp)
      rw [List.map_cons, ih (fun x hx => h x (by simp [hx]))]
      simp [ha]

theorem updateConn_append_key (l : List (String × AgentConnection)) (id : String)
    (c0 c2 : AgentConnection) (h : ∀ a ∈ l, (a.1 == id) = false) :
    updateConn (l ++ [(id, c0)]) id c2 = l ++ [(id, c2)] := by
  have h1 : updateConn l id c2 = l := updateConn_no_key l id c2 h
  unfold updateConn at h1 ⊢
  rw [List.map_append, h1]
  simp

theorem lookupConn_update_append (l : List (String × AgentConnection)) (id : String)
    (c0 c2 : AgentConnection) (h : ∀ a ∈ l, (a.1 == id) = false) :
    lookupConn (updateConn (l ++ [(id, c0)]) id c2) id = some c2 := by
  rw [updateConn_append_key l id c0 c2 h]
  unfold lookupConn
  rw [find?_key_append l id c2 h]
  rfl

theorem lookupConn_none_forall {l : List (String × AgentConnection)} {id : String}
    (h : lookupConn l id = none) : ∀ a ∈ l, (a.1 == id) = false := by
  intro a ha
  have hf : l.find? (fun p => p.1 == id) = none := by
    cases hx : l.find? (fun p => p.1 == id) with
    | none => rfl
    | some p =>
        unfold lookupConn at h
        rw [hx] at h
        exact absurd h (by simp)
  have hx := List.find?_eq_none.mp hf a ha
  simpa using hx

theorem lookupConn_append_key (l : List (String × AgentConnection)) (id : String)
    (c0 : AgentConnection) (h : ∀ a ∈ l, (a.1 == id) = false) :
    lookupConn (l ++ [(id, c0)]) id = some c0 := by
  unfold lookupConn
  rw [find?_key_append l id c0 h]
  rfl

theorem register_agent_lookup (st : ManagerState) (agent_id mcp_endpoint : String)
    (connectNow : Bool) (outcome : ConnectOutcome) (now : Nat) :
    lookupConn (register_agent st agent_id mcp_endpoint connectNow outcome now).1.connections
        agent_id
      = some (register_agent st agent_id mcp_endpoint connectNow outcome now).2 := by
  cases hl : lookupConn st.connections agent_id with
  | some conn => simp [register_agent, hl]
  | none =>
      have hall := lookupConn_none_forall hl
      cases hc : connectNow with
      | true =>
          simp only [register_agent, hl, hc, if_true]
          exact lookupConn_update_append st.connections agent_id _ _ hall
      | false =>
          simp only [register_agent, hl, hc, Bool.false_eq_true, if_false]
          exact lookupConn_append_key st.connections agent_id _ hall

/-- C5: registering the same agent id twice returns the identical connection
both times, and the second call leaves the manager state — the connection map
and the count of opened transport sessions — completely unchanged (no second
session). -/
theorem C5_register_agent_idempotent (st st1 : ManagerState) (conn1 : AgentConnection)
    (agent_id ep1 ep2 : String) (c1 c2 : Bool) (o1 o2 : ConnectOutcome) (t1 t2 : Nat)
    (h : register_agent st agent_id ep1 c1 o1 t1 = (st1, conn1)) :
    register_agent st1 agent_id ep2 c2 o2 t2 = (st1, conn1) := by
  have hlook : lookupConn st1.connections agent_id = some conn1 := by
    have hx := register_agent_lookup st agent_id ep1 c1 o1 t1
    rw [h] at hx
    exact hx
  simp only [register_agent, hlook]

/-- Witness for C5: a concrete double registration. -/
theorem C5_register_agent_idempotent_witness :
    register_agent (register_agent ⟨[], 0⟩ "a1" "http" true (ConnectOutcome.ok ⟨[], [], false, false⟩) 5).1
        "a1" "other" true (ConnectOutcome.raises "down") 9
      = ((register_agent ⟨[], 0⟩ "a1" "http" true (ConnectOutcome.ok ⟨[], [], false, false⟩) 5).1,
         (register_agent ⟨[], 0⟩ "a1" "http" true (ConnectOutcome.ok ⟨[], [], false, false⟩) 5).2) :=
  C5_register_agent_idempotent ⟨[], 0⟩
    (register_agent ⟨[], 0⟩ "a1" "http" true (ConnectOutcome.ok ⟨[], [], false, false⟩) 5).1
    (register_agent ⟨[], 0⟩ "a1" "http" true (ConnectOutcome.ok ⟨[], [], false, false⟩) 5).2
    "a1" "http" "other" true true (ConnectOutcome.ok ⟨[], [], false, false⟩)
    (ConnectOutcome.raises "down") 5 9 rfl

/-- C6: for an unknown agent id, and for a known agent whose status is not
Online, the manager's call_tool returns the structured error dictionary and
the connection-level transport is never invoked (the invocation flag is
false), with no exception raised. -/
theorem C6_call_tool_structured_errors (st : ManagerState) (agent_id tool_name : String)
    (transport : AgentConnection → String → ToolResult) :
    (lookupConn st.connections agent_id = none →
      manager_call_tool st agent_id tool_name transport =
        (⟨false, some ("Agent " ++ agent_id ++ " not found"), []⟩, false)) ∧
    (∀ conn, lookupConn st.connections agent_id = some conn →
      conn.status ≠ AgentStatus.online →
      manager_call_tool st agent_id tool_name transport =
        (⟨false, some ("Agent " ++ agent_id ++ " is not online"), []⟩, false)) := by
  constructor
  · intro h
    simp [manager_call_tool, h]
  · intro conn h hs
    simp [manager_call_tool, h, hs]

/-- An example never-connected (Pending) connection used by witnesses. -/
def examplePendingConn : AgentConnection :=
  ⟨"a2", "http", AgentStatus.pending, none, none, ⟨[], [], false, false⟩, none, none⟩

/-- An example Busy connection used by witnesses. -/
def exampleBusyConn : AgentConnection :=
  ⟨"a3", "http", AgentStatus.busy, some 1, some 1, ⟨[], [], false, false⟩, some 0, some 0⟩

/-- Witness for C6: an empty registry and a registry holding a Pending agent. -/
theorem C6_call_tool_structured_errors_witness :
    manager_call_tool ⟨[], 0⟩ "a1" "ping" (fun _ _ => ⟨true, none, []⟩) =
      (⟨false, some ("Agent " ++ "a1" ++ " not found"), []⟩, false) ∧
    manager_call_tool ⟨[("a2", examplePendingConn)], 0⟩ "a2" "ping" (fun _ _ => ⟨true, none, []⟩) =
      (⟨false, some ("Agent " ++ "a2" ++ " is not online"), []⟩, false) :=
  ⟨(C6_call_tool_structured_errors ⟨[], 0⟩ "a1" "ping" _).1 rfl,
   (C6_call_tool_structured_errors ⟨[("a2", examplePendingConn)], 0⟩ "a2" "ping" _).2
      examplePendingConn rfl (by decide)⟩

/-- C7 counterexample: on a connection holding no transport session (for
instance one that was never connected or was disconnected),
AgentConnection.call_tool raises RuntimeError instead of returning the
error-shaped result, so for that connection state a raised error does escape
call_tool's boundary. -/
theorem C7_counterexample :
    connection_call_tool
        ⟨"a1", "http", AgentStatus.offline, none, none, ⟨[], [], false, false⟩, none, none⟩
        "ping" (TransportOutcome.raises "boom") 0
      = Except.error ("Not connected to agent " ++ "a1") := by
  rfl

/-- C7 amended: whenever the connection holds a transport session, call_tool
never propagates a raise — a transport-level exception is converted into the
`{success:false, error}` result shape, and every transport outcome produces a
normally-returned value. -/
theorem C7_no_raise_when_session_held (conn : AgentConnection) (tool_name : String)
    (outcome : TransportOutcome) (now : Nat) (h : conn._session.isSome) :
    (∀ msg, connection_call_tool conn tool_name (TransportOutcome.raises msg) now =
        Except.ok (⟨false, some msg, []⟩, conn)) ∧
    ∃ r, connection_call_tool conn tool_name outcome now = Except.ok r := by
  cases hs : conn._session with
  | none => rw [hs] at h; simp at h
  | some s =>
      constructor
      · intro msg
        simp [connection_call_tool, hs]
      · cases outcome with
        | ok isError content =>
            refine ⟨(⟨match isError with | some b => !b | none => true, none, content⟩,
                     { conn with last_activity := some now }), ?_⟩
            simp [connection_call_tool, hs]
        | raises msg =>
            exact ⟨(⟨false, some msg, []⟩, conn), by simp [connection_call_tool, hs]⟩

/-- Witness for C7 amended: a connected connection with a raising transport. -/
theorem C7_no_raise_when_session_held_witness :
    connection_call_tool exampleBusyConn "ping" (TransportOutcome.raises "boom") 3 =
      Except.ok (⟨false, some "boom", []⟩, exampleBusyConn) :=
  (C7_no_raise_when_session_held exampleBusyConn "ping" (TransportOutcome.raises "boom") 3
      (by decide)).1 "boom"

/-- C9: disconnect leaves the connection Offline with no session and no HTTP
client, reports a release exactly when a client was held, publishes the
agent-disconnected event, and is idempotent — a second disconnect returns the
very same connection, releases nothing, and is not an error. -/
theorem C9_disconnect_idempotent (conn : AgentConnection) :
    ((AgentConnection.disconnect conn).1.status = AgentStatus.offline ∧
     (AgentConnection.disconnect conn).1._session = none ∧
     (AgentConnection.disconnect conn).1._http_client = none) ∧
    (AgentConnection.disconnect conn).2.1 = conn._http_client.isSome ∧
    (AgentConnection.disconnect conn).2.2 =
      [⟨"agent.disconnected", [("agent_id", conn.agent_id)], 0, 0, some "mcp_client", none⟩] ∧
    AgentConnection.disconnect (AgentConnection.disconnect conn).1 =
      ((AgentConnection.disconnect conn).1, false,
       [⟨"agent.disconnected", [("agent_id", conn.agent_id)], 0, 0, some "mcp_client", none⟩]) := by
  simp [AgentConnection.disconnect]

/-- Boolean predicate for the error bucket of health_check: a status that is
neither Online nor Offline. -/
def inErrorBucket (p : String × AgentConnection) : Bool :=
  !(p.2.status == AgentStatus.online) && !(p.2.status == AgentStatus.offline)

theorem healthStep_foldl (l : List (String × AgentConnection)) :
    ∀ a : Nat × Nat × Nat,
      l.foldl healthStep a =
        (a.1 + (l.filter (fun p => p.2.status == AgentStatus.online)).length,
         a.2.1 + (l.filter (fun p => p.2.status == AgentStatus.offline)).length,
         a.2.2 + (l.filter inErrorBucket).length) := by
  induction l with
  | nil => intro a; simp
  | cons p l ih =>
      intro a
      rw [List.foldl_cons, ih]
      by_cases h1 : p.2.status = AgentStatus.online
      · have hb1 : (p.2.status == AgentStatus.online) = true := by simp [h1]
        have hb2 : (p.2.status == AgentStatus.offline) = false := by simp [h1]
        have hb3 : inErrorBucket p = false := by simp [inErrorBucket, hb1]
        rw [List.filter_cons_of_pos (by simpa using hb1),
            List.filter_cons_of_neg (by simp [hb2]),
            List.filter_cons_of_neg (by simp [hb3])]
        have hstep : healthStep a p = (a.1 + 1, a.2.1, a.2.2) := by
          simp [healthStep, h1]
        rw [hstep]
        simp [Prod.ext_iff]
        omega
      · by_cases h2 : p.2.status = AgentStatus.offline
        · have hb1 : (p.2.status == AgentStatus.online) = false := by simp [h2]
          have hb2 : (p.2.status == AgentStatus.offline) = true := by simp [h2]
          have hb3 : inErrorBucket p = false := by simp [inErrorBucket, hb2]
          rw [List.filter_cons_of_neg (by simp [hb1]),
              List.filter_cons_of_pos (by simpa using hb2),
              List.filter_cons_of_neg (by simp [hb3])]
          have hstep : healthStep a p = (a.1, a.2.1 + 1, a.2.2) := by
            simp [healthStep, h1, h2]
          rw [hstep]
          simp [Prod.ext_iff]
          omega
        · have hb1 : (p.2.status == AgentStatus.online) = false := by simpa using h1
          have hb2 : (p.2.status == AgentStatus.offline) = false := by simpa using h2
          have hb3 : inErrorBucket p = true := by simp [inErrorBucket, hb1, hb2]
          rw [List.filter_cons_of_neg (by simp [hb1]),
              List.filter_cons_of_neg (by simp [hb2]),
              List.filter_cons_of_pos (by simpa using hb3)]
          have hstep : healthStep a p = (a.1, a.2.1, a.2.2 + 1) := by
            simp [healthStep, h1, h2]
          rw [hstep]
          simp [Prod.ext_iff]
          omega

theorem status_filter_partition (l : List (String × AgentConnection)) :
    (l.filter (fun p => p.2.status == AgentStatus.online)).length +
    (l.filter (fun p => p.2.status == AgentStatus.offline)).length +
    (l.filter inErrorBucket).length
      = l.length := by
  induction l with
  | nil => simp
  | cons p l ih =>
      by_cases h1 : p.2.status = AgentStatus.online
      · have hb1 : (p.2.status == AgentStatus.online) = true := by simp [h1]
        have hb2 : (p.2.status == AgentStatus.offline) = false := by simp [h1]
        have hb3 : inErrorBucket p = false := by simp [inErrorBucket, hb1]
        rw [List.filter_cons_of_pos (by simpa using hb1),
            List.filter_cons_of_neg (by simp [hb2]),
            List.filter_cons_of_neg (by simp [hb3])]
        simp only [List.length_cons]
        omega
      · by_cases h2 : p.2.status = AgentStatus.offline
        · have hb1 : (p.2.status == AgentStatus.online) = false := by simpa using h1
          have hb2 : (p.2.status == AgentStatus.offline) = true := by simp [h2]
          have hb3 : inErrorBucket p = false := by simp [inErrorBucket, hb2]
          rw [List.filter_cons_of_neg (by simp [hb1]),
              List.filter_cons_of_pos (by simpa using hb2),
              List.filter_cons_of_neg (by simp [hb3])]
          simp only [List.length_cons]
          omega
        · have hb1 : (p.2.status == AgentStatus.online) = false := by simpa using h1
          have hb2 : (p.2.status == AgentStatus.offline) = false := by simpa using h2
          have hb3 : inErrorBucket p = true := by simp [inErrorBucket, hb1, hb2]
          rw [List.filter_cons_of_neg (by simp [hb1]),
              List.filter_cons_of_neg (by simp [hb2]),
              List.filter_cons_of_pos (by simpa using hb3)]
          simp only [List.length_cons]
          omega

/-- C10: health_check partitions the registered connections into exactly the
online, offline and error counts, which always sum to the total number of
agents; the error bucket counts every connection whose status is neither
Online nor Offline, so Pending and Busy connections land in it. -/
theorem C10_health_check_partition (st : ManagerState) :
    ((health_check st).online + (health_check st).offline + (health_check st).error
        = (health_check st).total_agents) ∧
    ((health_check st).error = (st.connections.filter inErrorBucket).length) ∧
    (health_check ⟨[("a2", examplePendingConn), ("a3", exampleBusyConn)], 0⟩).error = 2 := by
  refine ⟨?_, ?_, ?_⟩
  · simp only [health_check, healthStep_foldl st.connections (0, 0, 0), Nat.zero_add]
    exact status_filter_partition st.connections
  · simp only [health_check, healthStep_foldl st.connections (0, 0, 0), Nat.zero_add]
  · decide

/-- A row of the agents table as the orchestrator reads it
(`select(Agent).where(...)` in `orchestrator.py`): id, name, the nullable
skills list (accessed as `a.skills or []`; the column lives in a database
revision not shipped with the sources) and the status used in the `where`
filter. -/
structure DBAgent where
  id : String
  name : String
  skills : Option (List String)
  status : AgentStatus
deriving DecidableEq

/-- A plan step dict `{"skill": ..., "status": ...}` from analyze_task, with
the "result" key execute_skill adds on completion. -/
structure PlanStep where
  skill : String
  status : String
  result : Option String
deriving DecidableEq

/-- A step-result dict appended by execute_skill.  On every path of
execute_skill the dict is built without an "error" key, so the `error` field
below (what `r.get("error")` would see in aggregate_results) is always
`none`. -/
structure StepResult where
  step : Nat
  agent_id : String
  skill : String
  inputs : List (String × String)
  result : String
  timestamp : Nat
  error : Option String
deriving DecidableEq

/-- One entry of the agent-selection decision log built in select_agent. -/
structure SelectionLogEntry where
  step : Nat
  required_skill : String
  candidates : List DBAgent
  skill_matches : List DBAgent
  selected : Option String
  reason : String
deriving DecidableEq

/-- The OrchestratorState TypedDict fields the state machine reads and
writes (`orchestrator.py`). -/
structure OState where
  task_id : String
  task_type : String
  task_description : String
  input_data : List (String × String)
  plan : List PlanStep
  current_step : Nat
  selected_agent_id : Option String
  skill_name : Option String
  step_results : List StepResult
  agent_selection_log : List SelectionLogEntry
  final_result : Option String
  error : Option String
  status : String
deriving DecidableEq

/-- Python truthiness of an optional string: None and "" are falsy. -/
def truthyStr : Option String → Bool
  | none => false
  | some s => s != ""

/-- A JSON value as far as the plan parser in analyze_task cares: strings,
arrays, numbers, everything else. -/
inductive JsonVal where
  | str (s : String)
  | arr (xs : List JsonVal)
  | num (n : Int)
  | other

/-- Outcome of the planner call in analyze_task: `fail` when the LLM call or
`json.loads` raises; otherwise the parsed JSON value. -/
inductive PlannerResult where
  | fail
  | parsed (j : JsonVal)

/-- The static task-type → skill-list fallback table in analyze_task
(`task_to_skills.get(task_type, [generate_code])`). -/
def task_to_skills (task_type : String) : List PlanStep :=
  if task_type = "code_generation" then [⟨"generate_code", "pending", none⟩]
  else if task_type = "code_review" then [⟨"review_code", "pending", none⟩]
  else if task_type = "bug_fix" then
    [⟨"debug_code", "pending", none⟩, ⟨"generate_code", "pending", none⟩]
  else if task_type = "refactor" then [⟨"refactor_code", "pending", none⟩]
  else if task_type = "security_audit" then [⟨"check_security", "pending", none⟩]
  else if task_type = "documentation" then [⟨"generate_code", "pending", none⟩]
  else [⟨"generate_code", "pending", none⟩]

/-- The plan computed by analyze_task from the planner outcome: on success
the parsed value is coerced to a list (`plan = [plan]` when not a list) and
only its string elements become pending steps; on any exception the fallback
table entry for the task type is substituted. -/
def analyze_plan (task_type : String) (pr : PlannerResult) : List PlanStep :=
  match pr with
  | .fail => task_to_skills task_type
  | .parsed j =>
      let l := match j with
        | JsonVal.arr xs => xs
        | v => [v]
      l.filterMap (fun v => match v with
        | JsonVal.str s => some ⟨s, "pending", none⟩
        | _ => none)

/-- analyze_task from `orchestrator.py` (state-transforming part): installs
the plan, resets the step counter and results, and moves to "planning"; the
error field is untouched on every path. -/
def analyze_task (pr : PlannerResult) (st : OState) : OState :=
  { st with plan := analyze_plan st.task_type pr, current_step := 0,
            step_results := [], status := "planning" }

/-- select_agent from `orchestrator.py`: past-the-end steps just clear the
selection; otherwise the online agents are filtered by the required skill,
the first skill match (or, failing that, the first online agent) is chosen,
and with no online agent at all the state becomes "failed" with the
descriptive error string. -/
def select_agent (db : List DBAgent) (st : OState) : OState :=
  if st.plan.length ≤ st.current_step then
    { st with selected_agent_id := none }
  else
    let step := st.plan.getD st.current_step ⟨"", "pending", none⟩
    let required_skill := step.skill
    let agents := db.filter (fun a => a.status == AgentStatus.online)
    let agents_with_skill := agents.filter (fun a => (a.skills.getD []).contains required_skill)
    match agents_with_skill with
    | sel :: _ =>
        { st with selected_agent_id := some sel.id, skill_name := some required_skill,
                  agent_selection_log := st.agent_selection_log ++
                    [⟨st.current_step, required_skill, agents, agents_with_skill, some sel.id,
                      "Agent '" ++ sel.name ++ "' has the required skill '"
                        ++ required_skill ++ "'."⟩],
                  status := "executing" }
    | [] =>
        match agents with
        | sel :: _ =>
            { st with selected_agent_id := some sel.id, skill_name := some required_skill,
                      agent_selection_log := st.agent_selection_log ++
                        [⟨st.current_step, required_skill, agents, [], some sel.id,
                          "No agent matched skill '" ++ required_skill
                            ++ "'; falling back to '" ++ sel.name ++ "'."⟩],
                      status := "executing" }
        | [] =>
            { st with selected_agent_id := none,
                      agent_selection_log := st.agent_selection_log ++
                        [⟨st.current_step, required_skill, [], [], none,
                          "No online agents available for skill '" ++ required_skill ++ "'."⟩],
                      error := some ("No agents available for skill: " ++ required_skill),
                      status := "failed" }

/-- The skill-name → argument-shape mapping `_prepare_skill_inputs` from
`orchestrator.py`; `input_data` is the task's string-valued input dict. -/
def prepare_skill_inputs (skill_name : String) (input_data : List (String × String)) :
    List (String × String) :=
  let get := fun (k d : String) => (((input_data.find? (fun p => p.1 == k)).map Prod.snd).getD d)
  if skill_name = "generate_code" then
    [("task", get "description" ""), ("language", get "language" "python")]
  else if skill_name = "review_code" then
    [("code", get "code" "")]
  else if skill_name = "debug_code" then
    [("code", get "code" ""), ("error", get "error" "")]
  else if skill_name = "refactor_code" then
    [("code", get "code" ""), ("instructions", get "instructions" "")]
  else input_data

/-- execute_skill from `orchestrator.py`.  The inference call
(`src/services/agent_inference.py` is not among the sources; modelled from
the spec: executing a skill on an agent resolves to a result text and must
not raise) is the parameter `infer`.  A step result is appended and the plan
step marked "completed" regardless of the tool's own outcome, then the step
index advances; the missing-selection and missing-agent branches set status
"failed". -/
def execute_skill (db : List DBAgent)
    (infer : String → String → List (String × String) → String)
    (now : Nat) (st : OState) : OState :=
  if !truthyStr st.selected_agent_id || !truthyStr st.skill_name then
    { st with error := some "No agent or skill selected", status := "failed" }
  else
    let agent_id := st.selected_agent_id.getD ""
    let skill_name := st.skill_name.getD ""
    match db.find? (fun a => a.id == agent_id) with
    | none =>
        { st with error := some ("Agent " ++ agent_id ++ " not found"), status := "failed" }
    | some _ =>
        let skill_inputs := prepare_skill_inputs skill_name st.input_data
        let result_text := infer agent_id skill_name skill_inputs
        let step_results := st.step_results ++
          [⟨st.current_step + 1, agent_id, skill_name, skill_inputs, result_text, now, none⟩]
        let plan :=
          if st.current_step < st.plan.length then
            st.plan.set st.current_step
              { st.plan.getD st.current_step ⟨"", "", none⟩ with
                  status := "completed", result := some result_text }
          else st.plan
        { st with plan := plan, step_results := step_results,
                  current_step := st.current_step + 1 }

/-- aggregate_results from `orchestrator.py`: joins the per-step reports (or
the placeholder when there are none) and recomputes the status purely from
the step results' "error" entries: "completed" when none is truthy,
"completed_with_errors" otherwise. -/
def aggregate_results (st : OState) : OState :=
  let final_parts := st.step_results.map (fun r => "## " ++ r.skill ++ "\n" ++ r.result)
  let final_result :=
    if final_parts.isEmpty then "No results generated."
    else String.intercalate "\n\n" final_parts
  let has_errors := st.step_results.any (fun r => truthyStr r.error)
  let status := if has_errors then "completed_with_errors" else "completed"
  { st with final_result := some final_result, status := status }

/-- should_continue from `orchestrator.py`. -/
def should_continue (st : OState) : Bool :=
  if st.status == "failed" then false
  else if st.plan.length ≤ st.current_step then false
  else true

/-- check_agent_selection from `orchestrator.py`: route to execute_skill
exactly when a selection was made (`selected_agent_id is None` routes to
aggregation). -/
def check_agent_selection (st : OState) : Bool :=
  st.selected_agent_id.isSome

/-- The select ⇄ execute loop plus the conditional edges of the LangGraph
graph (`build_orchestrator_graph`).  The fuel bounds the rounds: the real
loop terminates because the successful execute path advances current_step and
every other branch leaves the loop, so `plan.length + 1` fuel is enough. -/
def run_loop (db : List DBAgent)
    (infer : String → String → List (String × String) → String)
    (now : Nat) : Nat → OState → OState
  | 0, st => aggregate_results st
  | fuel + 1, st =>
      let st1 := select_agent db st
      if check_agent_selection st1 then
        let st2 := execute_skill db infer now st1
        if should_continue st2 then run_loop db infer now fuel st2
        else aggregate_results st2
      else aggregate_results st1

/-- The dictionary Orchestrator.execute_task returns. -/
structure ExecuteResult where
  task_id : String
  status : String
  result : Option String
  error : Option String
  steps : List StepResult
  plan : List PlanStep
  agent_selection_log : List SelectionLogEntry
deriving DecidableEq

/-- Orchestrator.execute_task from `orchestrator.py`: builds the initial
state, runs the compiled graph (analyze → select ⇄ execute → aggregate) and
projects the final state into the returned dictionary. -/
def execute_task (db : List DBAgent)
    (infer : String → String → List (String × String) → String)
    (planner : PlannerResult) (now : Nat)
    (task_id task_type description : String)
    (input_data : List (String × String)) : ExecuteResult :=
  let st0 : OState :=
    { task_id := task_id, task_type := task_type, task_description := description,
      input_data := input_data, plan := [], current_step := 0,
      selected_agent_id := none, skill_name := none, step_results := [],
      agent_selection_log := [], final_result := none, error := none,
      status := "pending" }
  let st1 := analyze_task planner st0
  let stF := run_loop db infer now (st1.plan.length + 1) st1
  { task_id := task_id, status := stF.status, result := stF.final_result,
    error := stF.error, steps := stF.step_results, plan := stF.plan,
    agent_selection_log := stF.agent_selection_log }

/-- C1: with zero agents registered the task's plan cannot be assigned, and
execute_task reports the claimed error string and empty steps — but its
terminal status is "completed", not the "failed" the specification demands:
aggregate_results unconditionally recomputes the status from the (empty)
step results, overwriting the "failed" set by select_agent. -/
theorem C1_zero_agents_result :
    execute_task [] (fun _ _ _ => "") PlannerResult.fail 0 "t1" "code_review" "desc" [] =
      { task_id := "t1", status := "completed",
        result := some "No results generated.",
        error := some ("No agents available for skill: " ++ "review_code"),
        steps := [],
        plan := [⟨"review_code", "pending", none⟩],
        agent_selection_log := [⟨0, "review_code", [], [], none,
          "No online agents available for skill 'review_code'."⟩] } := by
  rfl

theorem run_loop_ends_aggregated (db : List DBAgent)
    (infer : String → String → List (String × String) → String) (now : Nat) :
    ∀ (fuel : Nat) (st : OState),
      ∃ st', run_loop db infer now fuel st = aggregate_results st' := by
  intro fuel
  induction fuel with
  | zero => intro st; exact ⟨st, rfl⟩
  | succ n ih =>
      intro st
      simp only [run_loop]
      by_cases h1 : check_agent_selection (select_agent db st)
      · simp only [h1, if_true]
        by_cases h2 : should_continue (execute_skill db infer now (select_agent db st))
        · simp only [h2, if_true]
          exact ih _
        · simp only [h2, Bool.false_eq_true, if_false]
          exact ⟨_, rfl⟩
      · simp only [Bool.not_eq_true] at h1
        simp only [h1, Bool.false_eq_true, if_false]
        exact ⟨_, rfl⟩

theorem aggregate_status_cases (st : OState) :
    (aggregate_results st).status = "completed" ∨
    (aggregate_results st).status = "completed_with_errors" := by
  unfold aggregate_results
  by_cases h : st.step_results.any (fun r => truthyStr r.error)
  · right; simp [h]
  · left; simp [h]

theorem run_loop_status (db : List DBAgent)
    (infer : String → String → List (String × String) → String)
    (now fuel : Nat) (st : OState) :
    (run_loop db infer now fuel st).status = "completed" ∨
    (run_loop db infer now fuel st).status = "completed_with_errors" := by
  obtain ⟨st', h⟩ := run_loop_ends_aggregated db infer now fuel st
  rw [h]
  exact aggregate_status_cases st'

/-- C2: the claimed invariant — terminal status "failed" exactly when no
agent was selectable, "completed_with_errors" for step-level failures — does
not hold: every execution ends in aggregate_results, which always overwrites
the status with "completed" or "completed_with_errors", so the terminal
status is never "failed", even for the run in which no agent was selectable
(the C1 scenario reaches this very branch). -/
theorem C2_terminal_status_never_failed (db : List DBAgent)
    (infer : String → String → List (String × String) → String)
    (planner : PlannerResult) (now : Nat)
    (task_id task_type description : String)
    (input_data : List (String × String)) :
    (execute_task db infer planner now task_id task_type description input_data).status
        = "completed" ∨
    (execute_task db infer planner now task_id task_type description input_data).status
        = "completed_with_errors" := by
  unfold execute_task
  exact run_loop_status db infer now _ _

/-- C8 counterexample: planner output that parses to JSON but is not a list
of strings (malformed output) does not fall back to the static table — the
plan becomes empty, which differs from the configured code_review fallback. -/
theorem C8_counterexample :
    analyze_plan "code_review" (PlannerResult.parsed (JsonVal.num 42)) = [] ∧
    task_to_skills "code_review" = [⟨"review_code", "pending", none⟩] := by
  exact ⟨rfl, rfl⟩

/-- C8 amended: when the planner call raises (planner unreachable, or output
that is not parseable JSON), analyze_task substitutes the static
task-type-keyed fallback table, leaves the error field untouched and moves to
"planning" (the failure is not surfaced); the configured fallback for
"code_review" is exactly ["review_code"].  Planner output that parses to
JSON but is not a list of strings instead has its non-string elements
dropped, without the fallback. -/
theorem C8_planner_failure_fallback (st : OState) :
    (analyze_task PlannerResult.fail st).plan = task_to_skills st.task_type ∧
    (analyze_task PlannerResult.fail st).error = st.error ∧
    (analyze_task PlannerResult.fail st).status = "planning" ∧
    task_to_skills "code_review" = [⟨"review_code", "pending", none⟩] :=
  ⟨rfl, rfl, rfl, rfl⟩

end HackEurope
